import Mathlib

/-!
Shallow embedding of `dbuild/__init__.py` (python-dbuild): the Debian-package
build orchestrator that drives a docker engine.  Pure command construction is
translated to Lean functions; the stateful orchestration (`docker_build`,
`main`) is translated to functions from an explicit environment oracle
(`DockerEnv`, standing for the docker engine and the filesystem) to the trace
of external operations performed plus the final outcome.
-/

namespace Dbuild

/-- A decoded line of the docker image-build stream, as consumed by
`build_image`: a dict that may carry a `stream` key, an `error` key and an
`errorDetails` key. -/
structure BuildLogLine where
  stream : Option String
  error : Option String
  errorDetails : Option String
deriving DecidableEq, Repr

/-- Modelled from the spec: the module `dbuild/exceptions.py` is not part of
the sources given, only its uses in `dbuild/__init__.py` are.  Following the
error taxonomy of the spec (distinct user-facing errors: configuration error,
image-build failure, and the two phase failures), the exception classes are
modelled as separate constructors.  `envError` stands for any non-dbuild
exception raised by a collaborator (e.g. file IO while rendering the
Dockerfile), which `dbuild` never catches. -/
inductive DbuildException where
  | dockerBuildFailed (message : String) (detail : Option String)
  | buildFailed (message : String)
  | sourceBuildFailed (message : String)
  | binaryBuildFailed (message : String)
  | envError (message : String)
deriving DecidableEq, Repr

/-- The `build_image` generator: for each decoded line of the engine's build
stream, yields `line['stream']` when present, then raises
`DbuildDockerBuildFailedException(line['error'], line.get('errorDetails'))`
when the line carries an `error` key; lines after the raising one are never
read.  Returns the yielded stream lines and the raised error, if any. -/
def build_image : List BuildLogLine → List String × Option (String × Option String)
  | [] => ([], none)
  | l :: ls =>
    let ys : List String :=
      match l.stream with
      | some s => [s]
      | none => []
    match l.error with
    | some e => (ys, some (e, l.errorDetails))
    | none =>
      let r := build_image ls
      (ys ++ r.1, r.2)

/-- Arguments of `docker_build`, with the Python default values. -/
structure BuildArgs where
  build_dir : String
  build_type : String
  source_dir : String := "source"
  force_rm : Bool := false
  docker_url : String := "unix://var/run/docker.sock"
  dist : String := "ubuntu"
  release : String := "trusty"
  extra_repos_file : String := "repos"
  extra_repo_keys_file : String := "keys"
  build_cache : Bool := true
  proxy : String := ""
  build_owner : Option Int := none
  parallel : Int := 1
  no_default_sources : Bool := false
  include_timestamps : Bool := true

/-- Python truthiness of the optional integer `build_owner`: `None` and `0`
are both falsy, every other integer is truthy. -/
def ownerTruthy : Option Int → Bool
  | none => false
  | some n => n != 0

/-- Python `str(...)` of the optional integer, as used by
`'... %s ...' % build_owner`. -/
def ownerRepr : Option Int → String
  | some n => toString n
  | none => "None"

/-- A run of `n` spaces.  Python string literals continued over a line break
with a trailing backslash keep the next line's leading indentation, so the
command fragments below contain these runs. -/
def spaces (n : Nat) : String := String.mk (List.replicate n ' ')

/-- Fragment prepended when `no_default_sources` is set (line 131). -/
def noDefaultSourcesCmd : String := "> /etc/apt/sources.list && "

/-- Fragment prepended when the extra-repos file exists (lines 134-135);
the literal continues over a line break, keeping 8 spaces of indentation. -/
def cpCmd (f : String) : String :=
  "cp /build/" ++ f ++ " " ++ spaces 8 ++
    "/etc/apt/sources.list.d/dbuild-extra-repos.list && "

/-- Fragment prepended when the extra-repo-keys file exists (line 138). -/
def aptKeyCmd (f : String) : String := "apt-key add /build/" ++ f ++ " && "

/-- The unconditional non-interactive update / dist-upgrade step
(lines 140-141); the literal continues over a line break, keeping 19 spaces. -/
def upgradeCmd : String :=
  "export DEBIAN_FRONTEND=noninteractive; apt-get -y update " ++ spaces 19 ++
    "&& apt-get -y dist-upgrade && "

/-- The source-phase build step (line 144). -/
def sourceCmd : String := "dpkg-buildpackage -S -I -nc -uc -us"

/-- The binary-phase build step (lines 147-150); the literal continues over
three line breaks, keeping 22 spaces each, and `-j{}` is formatted with the
`parallel` argument. -/
def binaryCmd (parallel : Int) : String :=
  "dpkg-source -x /build/*.dsc /build/pkgbuild/ && " ++ spaces 22 ++
    "cd /build/pkgbuild && " ++ spaces 22 ++
    "/usr/lib/pbuilder/pbuilder-satisfydepends && " ++ spaces 22 ++
    "dpkg-buildpackage -b -uc -us -j" ++ toString parallel

/-- The trailing chown suffix appended when `build_owner` is truthy
(line 157). -/
def ownerSuffix (owner : Option Int) : String :=
  " ; rv=$? ; chown -R " ++ ownerRepr owner ++ " /build ; exit $rv"

/-- The conditional fragments accumulated into `command` before the
phase-specific step (lines 128-141).  `reposExists` and `keysExists` are the
results of the two `os.path.exists` checks on
`os.path.join(build_dir, extra_repos_file)` and
`os.path.join(build_dir, extra_repo_keys_file)`. -/
def cmdPre (args : BuildArgs) (reposExists keysExists : Bool) : String :=
  (if args.no_default_sources then noDefaultSourcesCmd else "") ++
  (if reposExists then cpCmd args.extra_repos_file else "") ++
  (if keysExists then aptKeyCmd args.extra_repo_keys_file else "") ++
  upgradeCmd

/-- The owner-suffix step (lines 156-157): appended only when `build_owner`
is truthy. -/
def withOwner (args : BuildArgs) (command : String) : String :=
  if ownerTruthy args.build_owner then command ++ ownerSuffix args.build_owner
  else command

/-- Lines 128-157 of `docker_build`: construct the container command and its
working directory, or raise
`DbuildBuildFailedException('Unknown build_type: %s' % build_type)` when the
build type is neither `source` nor `binary`. -/
def build_command (args : BuildArgs) (reposExists keysExists : Bool) :
    Except DbuildException (String × String) :=
  if args.build_type = "source" then
    .ok (withOwner args (cmdPre args reposExists keysExists ++ sourceCmd),
         "/build/" ++ args.source_dir)
  else if args.build_type = "binary" then
    .ok (withOwner args (cmdPre args reposExists keysExists ++ binaryCmd args.parallel),
         "/build")
  else
    .error (.buildFailed ("Unknown build_type: " ++ args.build_type))

/-- Python `os.path.join` for two components: an absolute second component
wins; otherwise the components are joined with a single `/` unless the first
already ends in one or is empty. -/
def osPathJoin (a b : String) : String :=
  if b.startsWith "/" then b
  else if a = "" ∨ a.endsWith "/" then a ++ b
  else a ++ "/" ++ b

/-- The external world as seen by one `docker_build` call: the filesystem's
`os.path.exists` oracle, whether `create_dockerfile` raises (some IO error
message) or succeeds, the decoded image-build stream the engine produces, the
created container (modelled by its id), its log lines (after `strip()` and
decoding), and the exit code returned by `wait`. -/
structure DockerEnv where
  pathExists : String → Bool
  dockerfileError : Option String
  buildLog : List BuildLogLine
  containerId : String
  containerLogs : List String
  waitRv : Int

/-- One observable external operation of the orchestrator: a printed line, or
a call into the filesystem / docker engine. -/
inductive Event where
  | print (s : String)
  | mkdtemp
  | create_dockerfile (dist release proxy : String)
  | docker_build_image (tag : String) (nocache : Bool)
  | rmtree
  | create_container (image : String) (command : List String) (cwd : String)
      (binds : List String)
  | start (containerId : String)
  | wait (containerId : String)
  | remove (containerId : String) (force : Bool)
deriving DecidableEq, Repr

/-- Lines 208-215 of `docker_build`: on failure (`build_rv` false), raise the
phase-specific exception.  The final branch (build type neither `source` nor
`binary`) is unreachable here because `build_command` already rejected such
types; Python would fall through and return `None`. -/
def raisePhase (bt : String) : Except DbuildException Bool :=
  if bt = "source" then .error (.sourceBuildFailed "Source build FAILED")
  else if bt = "binary" then .error (.binaryBuildFailed "Binary build FAILED")
  else .ok false

/-- Lines 159-215 of `docker_build`, after the command has been built:
announce the phase, make the scratch docker directory, render the Dockerfile
and build the image inside `try/finally shutil.rmtree`, then create, start,
log and wait on the container, and apply the cleanup / error policy to the
exit code. -/
def docker_build_run (args : BuildArgs) (env : DockerEnv)
    (command : String) (cwd : String) :
    List Event × Except DbuildException Bool :=
  let t0 : List Event :=
    [.print ("Starting " ++ args.build_type ++ " Package Build"), .mkdtemp]
  match env.dockerfileError with
  | some m => (t0 ++ [.rmtree], .error (.envError m))
  | none =>
    let image_tag := "dbuild-" ++ args.dist ++ "/" ++ args.release
    let t1 := t0 ++ [.create_dockerfile args.dist args.release args.proxy,
                     .docker_build_image image_tag (!args.build_cache)]
    let r := build_image env.buildLog
    let t2 := t1 ++ r.1.map Event.print
    match r.2 with
    | some ed => (t2 ++ [.rmtree], .error (.dockerBuildFailed ed.1 ed.2))
    | none =>
      let t3 := t2 ++ [.rmtree,
        .create_container image_tag ["bash", "-c", command] cwd
          [args.build_dir ++ ":/build"],
        .print env.containerId,
        .start env.containerId]
      let t4 := t3 ++ env.containerLogs.map Event.print
      let t5 := t4 ++ [.wait env.containerId]
      if env.waitRv = 0 then
        (t5 ++ [.print ("Build successful (build type: " ++ args.build_type ++
                  "), removing container " ++ env.containerId),
                .remove env.containerId true],
         .ok true)
      else if args.force_rm then
        (t5 ++ [.print ("Build failed (build type: " ++ args.build_type ++
                  "), Removing container " ++ env.containerId),
                .remove env.containerId true],
         raisePhase args.build_type)
      else
        (t5 ++ [.print ("Build failed (build type: " ++ args.build_type ++
                  "), keeping container " ++ env.containerId)],
         raisePhase args.build_type)

/-- The whole `docker_build` (lines 96-215): build the command (raising
`Unknown build_type` before any filesystem or docker work), then run the
orchestration.  Returns the trace of external operations and the outcome. -/
def docker_build (args : BuildArgs) (env : DockerEnv) :
    List Event × Except DbuildException Bool :=
  let reposExists := env.pathExists (osPathJoin args.build_dir args.extra_repos_file)
  let keysExists := env.pathExists (osPathJoin args.build_dir args.extra_repo_keys_file)
  match build_command args reposExists keysExists with
  | .error e => ([], .error e)
  | .ok cc => docker_build_run args env cc.1 cc.2

/-- The argparse result of `main` (lines 218-255), with its default values. -/
structure CliArgs where
  build_dir : String
  source_dir : String := "source"
  force_rm : Bool := false
  docker_url : String := "unix://var/run/docker.sock"
  dist : String := "ubuntu"
  release : String := "trusty"
  extra_repos_file : String := "repos"
  extra_repo_keys_file : String := "keys"
  build_cache : Bool := true
  proxy : String := ""
  build_owner : Option Int := none
  parallel : Int := 1
  no_default_sources : Bool := false
  include_timestamps : Bool := true

/-- The source-phase call of `docker_build` in `main` (lines 258-267): note
that `parallel` is not forwarded, so the source phase uses the default 1. -/
def sourceArgs (a : CliArgs) : BuildArgs :=
  { build_dir := a.build_dir, build_type := "source", source_dir := a.source_dir,
    force_rm := a.force_rm, docker_url := a.docker_url, dist := a.dist,
    release := a.release, extra_repos_file := a.extra_repos_file,
    extra_repo_keys_file := a.extra_repo_keys_file, build_cache := a.build_cache,
    proxy := a.proxy, build_owner := a.build_owner,
    no_default_sources := a.no_default_sources,
    include_timestamps := a.include_timestamps }

/-- The binary-phase call of `docker_build` in `main` (lines 273-284), which
does forward `parallel`. -/
def binaryArgs (a : CliArgs) : BuildArgs :=
  { build_dir := a.build_dir, build_type := "binary", source_dir := a.source_dir,
    force_rm := a.force_rm, docker_url := a.docker_url, dist := a.dist,
    release := a.release, extra_repos_file := a.extra_repos_file,
    extra_repo_keys_file := a.extra_repo_keys_file, build_cache := a.build_cache,
    proxy := a.proxy, build_owner := a.build_owner, parallel := a.parallel,
    no_default_sources := a.no_default_sources,
    include_timestamps := a.include_timestamps }

/-- The top-level `main` (lines 218-290), after argument parsing: run the
source phase, catching only `DbuildSourceBuildFailedException` (print the
labeled error line and return `False`); on success run the binary phase,
catching only `DbuildBinaryBuildFailedException` likewise; return `True` when
both phases pass.  Other exceptions propagate.  `env1` and `env2` are the
external worlds seen by the two phases. -/
def main (a : CliArgs) (env1 env2 : DockerEnv) :
    List Event × Except DbuildException Bool :=
  let r1 := docker_build (sourceArgs a) env1
  match r1.2 with
  | .error (.sourceBuildFailed _) =>
    (r1.1 ++ [.print ("ERROR | Source build failed for build directory: " ++
       a.build_dir)], .ok false)
  | .error e => (r1.1, .error e)
  | .ok _ =>
    let r2 := docker_build (binaryArgs a) env2
    match r2.2 with
    | .error (.binaryBuildFailed _) =>
      (r1.1 ++ r2.1 ++ [.print ("ERROR | Binary build failed for build directory: "
         ++ a.build_dir)], .ok false)
    | .error e => (r1.1 ++ r2.1, .error e)
    | .ok _ => (r1.1 ++ r2.1, .ok true)

/-- Boolean check that `pat` is a prefix of `s`, on character lists. -/
def charsHavePre : List Char → List Char → Bool
  | [], _ => true
  | _ :: _, [] => false
  | p :: ps, c :: cs => p == c && charsHavePre ps cs

/-- Boolean check that `pat` occurs as a contiguous segment of `s`, on
character lists. -/
def charsContain (pat : List Char) : List Char → Bool
  | [] => charsHavePre pat []
  | c :: rest => charsHavePre pat (c :: rest) || charsContain pat rest

/-- Boolean substring check on strings. -/
def containsSub (s pat : String) : Bool := charsContain pat.data s.data

/-- Boolean suffix check on strings. -/
def endsWithSub (s pat : String) : Bool :=
  charsHavePre pat.data.reverse s.data.reverse

theorem str_data_append (s t : String) : (s ++ t).data = s.data ++ t.data := rfl

theorem charsHavePre_append_right (pat : List Char) :
    ∀ s t : List Char, charsHavePre pat s = true →
      charsHavePre pat (s ++ t) = true := by
  induction pat with
  | nil => intro s t _; rfl
  | cons p ps ih =>
    intro s t h
    cases s with
    | nil => simp [charsHavePre] at h
    | cons c cs =>
      simp [charsHavePre] at h ⊢
      exact ⟨h.1, ih cs t h.2⟩

theorem charsContain_nil_pat (s : List Char) : charsContain [] s = true := by
  cases s with
  | nil => rfl
  | cons c cs => simp [charsContain, charsHavePre]

theorem charsContain_of_pre (pat s : List Char) (h : charsHavePre pat s = true) :
    charsContain pat s = true := by
  cases s with
  | nil => simpa [charsContain] using h
  | cons c cs => simp [charsContain, h]

theorem charsContain_append_right (pat t : List Char) :
    ∀ s : List Char, charsContain pat t = true →
      charsContain pat (s ++ t) = true := by
  intro s h
  induction s with
  | nil => simpa using h
  | cons c cs ih => simp [charsContain, ih]

theorem charsContain_append_left (pat : List Char) :
    ∀ s t : List Char, charsContain pat s = true →
      charsContain pat (s ++ t) = true := by
  intro s t h
  induction s with
  | nil =>
    cases pat with
    | nil => exact charsContain_nil_pat t
    | cons p ps => simp [charsContain, charsHavePre] at h
  | cons c cs ih =>
    simp only [charsContain, Bool.or_eq_true] at h
    rcases h with h | h
    · have := charsHavePre_append_right pat (c :: cs) t h
      simpa [charsContain] using Or.inl this
    · simpa [charsContain] using Or.inr (ih h)

theorem charsHavePre_refl (p : List Char) : charsHavePre p p = true := by
  induction p with
  | nil => rfl
  | cons c cs ih => simp [charsHavePre, ih]

theorem containsSub_refl (s : String) : containsSub s s = true :=
  charsContain_of_pre _ _ (charsHavePre_refl s.data)

theorem containsSub_append_left (s t pat : String)
    (h : containsSub s pat = true) : containsSub (s ++ t) pat = true := by
  unfold containsSub at h ⊢
  rw [str_data_append]
  exact charsContain_append_left _ _ _ h

theorem containsSub_append_right (s t pat : String)
    (h : containsSub t pat = true) : containsSub (s ++ t) pat = true := by
  unfold containsSub at h ⊢
  rw [str_data_append]
  exact charsContain_append_right _ _ _ h

/-- `build_image` on a stream whose first chunk carries no error key: the
clean chunk contributes its `stream` values and the rest of the stream is
processed unchanged. -/
theorem build_image_clean_append (pre rest : List BuildLogLine)
    (hpre : ∀ x ∈ pre, x.error = none) :
    build_image (pre ++ rest) =
      (pre.filterMap (fun x => x.stream) ++ (build_image rest).1,
       (build_image rest).2) := by
  induction pre with
  | nil => simp
  | cons x xs ih =>
    have hx : x.error = none := hpre x (by simp)
    have ih' := ih (fun y hy => hpre y (by simp [hy]))
    cases hs : x.stream <;>
      simp [build_image, hx, hs, ih', List.filterMap_cons]

/-- The scratch-directory cleanup (`finally: shutil.rmtree`) runs on every
path of the orchestration after the scratch directory was created. -/
theorem rmtree_mem_run (args : BuildArgs) (env : DockerEnv)
    (command cwd : String) :
    Event.rmtree ∈ (docker_build_run args env command cwd).1 := by
  unfold docker_build_run
  rcases hdf : env.dockerfileError with _ | m
  · rcases hbl : (build_image env.buildLog).2 with _ | ed
    · by_cases hw : env.waitRv = 0
      · simp [hbl, hw]
      · cases hfr : args.force_rm <;> simp [hbl, hw, hfr]
    · simp [hbl]
  · simp

/-- `docker_build` on the source build type runs the orchestration on the
source command. -/
theorem docker_build_source_eq (args : BuildArgs) (env : DockerEnv)
    (h : args.build_type = "source") :
    docker_build args env = docker_build_run args env
      (withOwner args (cmdPre args
        (env.pathExists (osPathJoin args.build_dir args.extra_repos_file))
        (env.pathExists (osPathJoin args.build_dir args.extra_repo_keys_file)) ++
        sourceCmd))
      ("/build/" ++ args.source_dir) := by
  simp [docker_build, build_command, h]

/-- `docker_build` on the binary build type runs the orchestration on the
binary command. -/
theorem docker_build_binary_eq (args : BuildArgs) (env : DockerEnv)
    (h : args.build_type = "binary") :
    docker_build args env = docker_build_run args env
      (withOwner args (cmdPre args
        (env.pathExists (osPathJoin args.build_dir args.extra_repos_file))
        (env.pathExists (osPathJoin args.build_dir args.extra_repo_keys_file)) ++
        binaryCmd args.parallel))
      "/build" := by
  simp [docker_build, build_command, h]

/-- `docker_build` either rejects the build type up front with an empty trace
or runs the orchestration on the command built for a valid build type. -/
theorem docker_build_cases (args : BuildArgs) (env : DockerEnv) :
    docker_build args env =
      ([], .error (.buildFailed ("Unknown build_type: " ++ args.build_type))) ∨
    ∃ command cwd,
      docker_build args env = docker_build_run args env command cwd := by
  by_cases h1 : args.build_type = "source"
  · exact Or.inr ⟨_, _, docker_build_source_eq args env h1⟩
  · by_cases h2 : args.build_type = "binary"
    · exact Or.inr ⟨_, _, docker_build_binary_eq args env h2⟩
    · exact Or.inl (by simp [docker_build, build_command, h1, h2])

/-- Sample environment for witnesses: both optional files absent, Dockerfile
rendering succeeds, empty image-build stream, exit code 0. -/
def okEnv : DockerEnv :=
  { pathExists := fun _ => false, dockerfileError := none, buildLog := [],
    containerId := "cafebabe", containerLogs := [], waitRv := 0 }

/-- Sample environment for witnesses: like `okEnv` but the container exits
with code 2. -/
def failEnv : DockerEnv :=
  { pathExists := fun _ => false, dockerfileError := none, buildLog := [],
    containerId := "cafebabe", containerLogs := [], waitRv := 2 }

/-- Sample source-phase arguments (all defaults, in particular
`force_rm = false`). -/
def srcArgs : BuildArgs := { build_dir := "/b", build_type := "source" }

/-- Sample binary-phase arguments with parallelism 4. -/
def binArgs : BuildArgs :=
  { build_dir := "/b", build_type := "binary", parallel := 4 }

/-- C1: for every phase (source or binary), if the container's wait returns
exit code 0, the orchestrator removes the container with force=True and the
phase result is success, regardless of the value of `force_rm`. -/
theorem c1_exit_zero_removes_and_succeeds (args : BuildArgs) (env : DockerEnv)
    (hbt : args.build_type = "source" ∨ args.build_type = "binary")
    (hdf : env.dockerfileError = none)
    (himg : (build_image env.buildLog).2 = none)
    (hw : env.waitRv = 0) :
    Event.remove env.containerId true ∈ (docker_build args env).1 ∧
    (docker_build args env).2 = .ok true := by
  rcases hbt with h | h <;>
    simp [docker_build, build_command, h, docker_build_run, hdf, himg, hw]

theorem c1_witness :
    Event.remove "cafebabe" true ∈ (docker_build srcArgs okEnv).1 ∧
    (docker_build srcArgs okEnv).2 = .ok true :=
  c1_exit_zero_removes_and_succeeds srcArgs okEnv (Or.inl rfl) rfl rfl rfl

/-- C2: for every phase, on a non-zero exit code the container is removed
(with force) if and only if `force_rm` is true; when `force_rm` is false the
orchestrator never calls remove at all, so the failed container is
preserved. -/
theorem c2_failure_removal_iff_force_rm (args : BuildArgs) (env : DockerEnv)
    (hbt : args.build_type = "source" ∨ args.build_type = "binary")
    (hdf : env.dockerfileError = none)
    (himg : (build_image env.buildLog).2 = none)
    (hw : ¬ env.waitRv = 0) :
    (Event.remove env.containerId true ∈ (docker_build args env).1 ↔
      args.force_rm = true) ∧
    (args.force_rm = false →
      ∀ cid f, Event.remove cid f ∉ (docker_build args env).1) := by
  rcases hbt with h | h <;> cases hfr : args.force_rm <;>
    simp [docker_build, build_command, h, docker_build_run, hdf, himg, hw, hfr]

theorem c2_witness :
    (Event.remove "cafebabe" true ∈ (docker_build srcArgs failEnv).1 ↔
      srcArgs.force_rm = true) ∧
    (srcArgs.force_rm = false →
      ∀ cid f, Event.remove cid f ∉ (docker_build srcArgs failEnv).1) :=
  c2_failure_removal_iff_force_rm srcArgs failEnv (Or.inl rfl) rfl rfl
    (by decide)

/-- C3: in a top-level run, if the source phase fails with
`DbuildSourceBuildFailedException`, `main` prints the labeled error line
naming the build directory and returns `False` (a failing status), and the
whole trace is exactly the source-phase trace plus that line — the binary
phase is never attempted (nothing from `env2` is touched). -/
theorem c3_source_failure_stops_run (a : CliArgs) (env1 env2 : DockerEnv)
    (m : String)
    (h : (docker_build (sourceArgs a) env1).2 = .error (.sourceBuildFailed m)) :
    main a env1 env2 =
      ((docker_build (sourceArgs a) env1).1 ++
        [Event.print ("ERROR | Source build failed for build directory: " ++
          a.build_dir)],
       .ok false) := by
  simp [main, h]

theorem c3_witness :
    main { build_dir := "/b" } failEnv okEnv =
      ((docker_build (sourceArgs { build_dir := "/b" }) failEnv).1 ++
        [Event.print ("ERROR | Source build failed for build directory: " ++
          "/b")],
       .ok false) :=
  c3_source_failure_stops_run { build_dir := "/b" } failEnv okEnv
    "Source build FAILED" rfl

/-- C4: for every build type other than `source` and `binary`, `docker_build`
raises the unknown-build-type configuration error with an empty trace: no
image build, container creation, start, wait or remove ever happens. -/
theorem c4_unknown_build_type_rejected_up_front (args : BuildArgs)
    (env : DockerEnv)
    (h1 : args.build_type ≠ "source") (h2 : args.build_type ≠ "binary") :
    docker_build args env =
      ([], .error (.buildFailed ("Unknown build_type: " ++ args.build_type))) := by
  simp [docker_build, build_command, h1, h2]

theorem c4_witness :
    docker_build { build_dir := "/b", build_type := "bogus" } okEnv =
      ([], .error (.buildFailed ("Unknown build_type: " ++ "bogus"))) :=
  c4_unknown_build_type_rejected_up_front
    { build_dir := "/b", build_type := "bogus" } okEnv (by decide) (by decide)

/-- C5: image-build log draining stops at the first error-bearing line: the
result is the same whatever follows that line, the raised error carries the
line's message and detail, and in `docker_build` (for a valid build type) the
phase aborts with `DbuildDockerBuildFailedException` and no container is ever
created. -/
theorem c5_image_build_error_stops_draining (pre post : List BuildLogLine)
    (l : BuildLogLine) (e : String)
    (hpre : ∀ x ∈ pre, x.error = none) (hl : l.error = some e) :
    build_image (pre ++ l :: post) = build_image (pre ++ [l]) ∧
    (build_image (pre ++ l :: post)).2 = some (e, l.errorDetails) ∧
    ∀ args env, (args.build_type = "source" ∨ args.build_type = "binary") →
      env.dockerfileError = none →
      env.buildLog = pre ++ l :: post →
      (docker_build args env).2 = .error (.dockerBuildFailed e l.errorDetails) ∧
      ∀ img cmd cwd binds,
        Event.create_container img cmd cwd binds ∉ (docker_build args env).1 := by
  have h1 := build_image_clean_append pre (l :: post) hpre
  have h2 := build_image_clean_append pre [l] hpre
  have hstep : build_image (l :: post) = build_image [l] := by
    cases hs : l.stream <;> simp [build_image, hl, hs]
  have heq : build_image (pre ++ l :: post) = build_image (pre ++ [l]) := by
    rw [h1, h2, hstep]
  have hsnd : (build_image (pre ++ l :: post)).2 = some (e, l.errorDetails) := by
    rw [h1]
    cases hs : l.stream <;> simp [build_image, hl, hs]
  refine ⟨heq, hsnd, ?_⟩
  intro args env hbt hdf hbl
  have himg : (build_image env.buildLog).2 = some (e, l.errorDetails) := by
    rw [hbl]; exact hsnd
  rcases hbt with h | h <;>
    simp [docker_build, build_command, h, docker_build_run, hdf, himg]

theorem c5_witness :
    build_image ([⟨some "line1", none, none⟩] ++
        ⟨none, some "boom", some "det"⟩ :: [⟨some "late", none, none⟩]) =
      build_image ([⟨some "line1", none, none⟩] ++
        [⟨none, some "boom", some "det"⟩]) ∧
    (build_image ([⟨some "line1", none, none⟩] ++
        ⟨none, some "boom", some "det"⟩ :: [⟨some "late", none, none⟩])).2 =
      some ("boom", some "det") ∧
    ∀ args env,
      (args.build_type = "source" ∨ args.build_type = "binary") →
      env.dockerfileError = none →
      env.buildLog = [⟨some "line1", none, none⟩] ++
        ⟨none, some "boom", some "det"⟩ :: [⟨some "late", none, none⟩] →
      (docker_build args env).2 = .error (.dockerBuildFailed "boom" (some "det")) ∧
      ∀ img cmd cwd binds,
        Event.create_container img cmd cwd binds ∉ (docker_build args env).1 :=
  c5_image_build_error_stops_draining
    [⟨some "line1", none, none⟩] [⟨some "late", none, none⟩]
    ⟨none, some "boom", some "det"⟩ "boom" (by decide) rfl

/-- C6: whenever the scratch image-build-context directory is created
(`mkdtemp` appears in the trace), it is removed (`rmtree` appears in the
trace) — on success, on image-build failure, and on any exception raised
while rendering the Dockerfile. -/
theorem c6_scratch_dir_always_removed (args : BuildArgs) (env : DockerEnv)
    (h : Event.mkdtemp ∈ (docker_build args env).1) :
    Event.rmtree ∈ (docker_build args env).1 := by
  rcases docker_build_cases args env with hc | ⟨command, cwd, hc⟩
  · rw [hc] at h; simp at h
  · rw [hc]; exact rmtree_mem_run args env command cwd

theorem c6_witness :
    Event.mkdtemp ∈ (docker_build srcArgs okEnv).1 ∧
    Event.rmtree ∈ (docker_build srcArgs okEnv).1 :=
  ⟨by decide, c6_scratch_dir_always_removed srcArgs okEnv (by decide)⟩

/-- C7: for the source build type with neither optional file present (both
`os.path.exists` results false), `no_default_sources` unset and no
`build_owner`, the command is exactly the upgrade step followed by the
unsigned source build: it contains no `cp` and no `apt-key add` segment,
contains the non-interactive update / dist-upgrade segment, ends with
`dpkg-buildpackage -S -I -nc -uc -us`, and the working directory is
`/build/<source_dir>`. -/
theorem c7_source_command_without_extras (args : BuildArgs)
    (hbt : args.build_type = "source")
    (hnds : args.no_default_sources = false)
    (howner : args.build_owner = none) :
    build_command args false false =
      .ok (upgradeCmd ++ sourceCmd, "/build/" ++ args.source_dir) ∧
    containsSub (upgradeCmd ++ sourceCmd) "cp" = false ∧
    containsSub (upgradeCmd ++ sourceCmd) "apt-key add" = false ∧
    containsSub (upgradeCmd ++ sourceCmd) upgradeCmd = true ∧
    endsWithSub (upgradeCmd ++ sourceCmd) sourceCmd = true := by
  refine ⟨?_, by decide, by decide, by decide, by decide⟩
  simp [build_command, hbt, withOwner, ownerTruthy, howner, cmdPre, hnds]

theorem c7_witness :
    build_command srcArgs false false =
      .ok (upgradeCmd ++ sourceCmd, "/build/" ++ srcArgs.source_dir) ∧
    containsSub (upgradeCmd ++ sourceCmd) "cp" = false ∧
    containsSub (upgradeCmd ++ sourceCmd) "apt-key add" = false ∧
    containsSub (upgradeCmd ++ sourceCmd) upgradeCmd = true ∧
    endsWithSub (upgradeCmd ++ sourceCmd) sourceCmd = true :=
  c7_source_command_without_extras srcArgs rfl rfl rfl

/-- C8: for the binary build type (any repo/key-file situation), the command
carries the binary step — extract the `.dsc` into `/build/pkgbuild`, resolve
build dependencies there, and run the unsigned binary build with the
requested parallelism — and the working directory is `/build`; for
parallelism 4 the command contains `-j4`. -/
theorem c8_binary_command_with_parallelism (args : BuildArgs)
    (reposExists keysExists : Bool)
    (hbt : args.build_type = "binary") :
    build_command args reposExists keysExists =
      .ok (withOwner args
            (cmdPre args reposExists keysExists ++ binaryCmd args.parallel),
           "/build") ∧
    containsSub
      (withOwner args
        (cmdPre args reposExists keysExists ++ binaryCmd args.parallel))
      (binaryCmd args.parallel) = true ∧
    (args.parallel = 4 →
      containsSub
        (withOwner args
          (cmdPre args reposExists keysExists ++ binaryCmd args.parallel))
        "-j4" = true) := by
  have hbase : ∀ pat : String, containsSub (binaryCmd args.parallel) pat = true →
      containsSub (withOwner args
        (cmdPre args reposExists keysExists ++ binaryCmd args.parallel))
        pat = true := by
    intro pat hpat
    have hmid := containsSub_append_right
      (cmdPre args reposExists keysExists) (binaryCmd args.parallel) pat hpat
    unfold withOwner
    by_cases ho : ownerTruthy args.build_owner = true
    · simp only [ho, if_pos]
      exact containsSub_append_left _ _ _ hmid
    · simp only [ho, if_neg, Bool.not_eq_true] at *
      simpa [ho] using hmid
  refine ⟨?_, hbase _ (containsSub_refl _), ?_⟩
  · simp [build_command, hbt]
  · intro hp
    refine hbase "-j4" ?_
    rw [hp]
    decide

theorem c8_witness :
    build_command binArgs false false =
      .ok (withOwner binArgs
            (cmdPre binArgs false false ++ binaryCmd binArgs.parallel),
           "/build") ∧
    containsSub
      (withOwner binArgs
        (cmdPre binArgs false false ++ binaryCmd binArgs.parallel))
      (binaryCmd binArgs.parallel) = true ∧
    (binArgs.parallel = 4 →
      containsSub
        (withOwner binArgs
          (cmdPre binArgs false false ++ binaryCmd binArgs.parallel))
        "-j4" = true) :=
  c8_binary_command_with_parallelism binArgs false false rfl

/-- C9 counterexample: a concrete failing source run that retains the
container `cafebabe` (exit code 2, `force_rm` false).  The raised error is
`DbuildSourceBuildFailedException('Source build FAILED')`, whose message does
not reference the retained container's identifier — contradicting the claim
that the error message names the retained container. -/
theorem c9_counterexample_message_lacks_container_id :
    (docker_build srcArgs failEnv).2 =
      .error (.sourceBuildFailed "Source build FAILED") ∧
    Event.print "Build failed (build type: source), keeping container cafebabe"
      ∈ (docker_build srcArgs failEnv).1 ∧
    containsSub "Source build FAILED" failEnv.containerId = false :=
  ⟨rfl, by decide, by decide⟩

/-- C9 (amended): on a failing phase (non-zero exit code), the raised
phase-specific error always carries the fixed message
`Source build FAILED` / `Binary build FAILED` — a constant independent of the
container, hence with no container handle in it — whether the container was
retained (`force_rm` false) or removed (`force_rm` true).  When it is
retained, its identifier is named on the printed `keeping container` line;
when `force_rm` is true the container is removed instead. -/
theorem c9_failure_error_carries_fixed_message (args : BuildArgs)
    (env : DockerEnv)
    (hbt : args.build_type = "source" ∨ args.build_type = "binary")
    (hdf : env.dockerfileError = none)
    (himg : (build_image env.buildLog).2 = none)
    (hw : ¬ env.waitRv = 0) :
    (args.force_rm = false →
      Event.print ("Build failed (build type: " ++ args.build_type ++
        "), keeping container " ++ env.containerId) ∈ (docker_build args env).1) ∧
    (args.force_rm = true →
      Event.remove env.containerId true ∈ (docker_build args env).1) ∧
    (args.build_type = "source" →
      (docker_build args env).2 = .error (.sourceBuildFailed "Source build FAILED")) ∧
    (args.build_type = "binary" →
      (docker_build args env).2 = .error (.binaryBuildFailed "Binary build FAILED")) := by
  rcases hbt with h | h <;> cases hfr : args.force_rm <;>
    simp [docker_build, build_command, h, docker_build_run, hdf, himg, hw,
      hfr, raisePhase]

theorem c9_amended_witness :
    (srcArgs.force_rm = false →
      Event.print ("Build failed (build type: " ++ srcArgs.build_type ++
        "), keeping container " ++ failEnv.containerId)
        ∈ (docker_build srcArgs failEnv).1) ∧
    (srcArgs.force_rm = true →
      Event.remove failEnv.containerId true ∈ (docker_build srcArgs failEnv).1) ∧
    (srcArgs.build_type = "source" →
      (docker_build srcArgs failEnv).2 =
        .error (.sourceBuildFailed "Source build FAILED")) ∧
    (srcArgs.build_type = "binary" →
      (docker_build srcArgs failEnv).2 =
        .error (.binaryBuildFailed "Binary build FAILED")) :=
  c9_failure_error_carries_fixed_message srcArgs failEnv (Or.inl rfl)
    rfl rfl (by decide)

/-- C10: Python truthiness makes `build_owner = 0` (uid 0) behave exactly as
if no owner had been supplied: the chown suffix is not appended and the whole
build, command and trace included, is identical to the no-owner build. -/
theorem c10_owner_zero_same_as_no_owner (args : BuildArgs) (env : DockerEnv)
    (reposExists keysExists : Bool) :
    build_command { args with build_owner := some 0 } reposExists keysExists =
      build_command { args with build_owner := none } reposExists keysExists ∧
    docker_build { args with build_owner := some 0 } env =
      docker_build { args with build_owner := none } env :=
  ⟨rfl, rfl⟩

end Dbuild
